import Mathlib

/-
Shallow embedding of the checklist repository's score-aggregation core
(src/core/models.py, src/core/signals.py, src/core/views.py).

Python `Decimal` values are modelled as exact rationals (ℚ); the Decimal
context's 28-significant-digit division precision is abstracted as exact
rational division, and `Decimal.quantize(Decimal('0.01'))` is modelled as
rounding to 2 decimal places with ties to even (ROUND_HALF_EVEN, the
default rounding of Python's Decimal context).  Database rows are modelled
as fields of structures; the Django ORM's row sets become Lean lists.
-/

namespace Checklist

/-- Round a rational to the nearest integer, ties to even
(Python Decimal ROUND_HALF_EVEN). -/
def roundHalfEven (x : ℚ) : ℤ :=
  let f : ℤ := ⌊x⌋
  let frac : ℚ := x - (f : ℚ)
  if frac < 1/2 then f
  else if 1/2 < frac then f + 1
  else if f % 2 = 0 then f else f + 1

/-- `Decimal.quantize(Decimal('0.01'))`: round to 2 decimal places, half-even. -/
def quantize2 (x : ℚ) : ℚ := (roundHalfEven (x * 100) : ℚ) / 100

/-- A `Question` row (src/core/models.py:421):
reference data with a point ceiling and a criticality flag. -/
structure Question where
  qid : Nat
  question_text : String
  possible_points : ℚ
  is_critical : Bool
deriving DecidableEq

/-- An `AuditQuestionResponse` row (src/core/models.py:559). -/
structure Response where
  rid : Nat
  question : Question
  scored_points : ℚ
  comments : String
  needs_corrective_action : Bool
deriving DecidableEq

/-- An `AuditSection` row (src/core/models.py:444) together with the rows it
reaches through the ORM: `questions` is `Question.objects.filter(section=self.section)`
and `responses` is `self.auditquestionresponse_set`. -/
structure AuditSection where
  questions : List Question
  responses : List Response
  scored_points : ℚ
  possible_points : ℚ
  section_percentage : ℚ
  has_critical_failure : Bool
deriving DecidableEq

/-- An `Audit` row (src/core/models.py:32) with its `auditsection_set`.
`audit_date` and timestamps are abstract day/instant counters. -/
structure Audit where
  restaurant : Nat
  audit_date : Nat
  manager_on_duty : String
  auditor_display : String
  total_scored : ℚ
  total_possible : ℚ
  total_percentage : ℚ
  grade : Char
  has_critical_failure : Bool
  previous_audit_date : Option Nat
  previous_audit_score : Option ℚ
  previous_auditor : String
  is_submitted : Bool
  submitted_at : Option Nat
  sections : List AuditSection
deriving DecidableEq

/-- A `CorrectiveAction` row (src/core/models.py:631); `question_response`
is the id of the referenced response. -/
structure CorrectiveAction where
  question_response : Nat
  description : String
  risk_level : String
  assigned_to : String
  deadline : Nat
  comments : String
deriving DecidableEq

/-- `Audit.calculate_normal_grade` (src/core/models.py:168):
bucket a percentage into a letter grade, no critical-failure consideration. -/
def calculate_normal_grade (percentage : ℚ) : Char :=
  if percentage ≥ 96 then 'A'
  else if percentage ≥ 90 then 'B'
  else if percentage ≥ 80 then 'C'
  else 'F'

/-- `AuditSection.calculate_section_score` (src/core/models.py:470):
recompute the four derived section fields from the response rows.
The persistence calls and the trailing `audit.calculate_totals()` cascade
are modelled at the call sites. -/
def calculate_section_score (s : AuditSection) : AuditSection :=
  let total_possible := s.responses.foldl (fun acc r => acc + r.question.possible_points) 0
  let total_scored := s.responses.foldl (fun acc r => acc + r.scored_points) 0
  let critical_failures :=
    s.responses.any (fun r => r.question.is_critical && decide (r.scored_points = 0))
  let pct := if total_possible > 0 then quantize2 (total_scored / total_possible * 100) else 0
  { s with possible_points := total_possible
         , scored_points := total_scored
         , has_critical_failure := critical_failures
         , section_percentage := pct }

/-- `Audit.calculate_totals` (src/core/models.py:95), success path:
recompute audit aggregates from the already-persisted section rows. -/
def calculate_totals (a : Audit) : Audit :=
  let total_scored := a.sections.foldl (fun acc s => acc + s.scored_points) 0
  let total_possible := a.sections.foldl (fun acc s => acc + s.possible_points) 0
  let crit := a.sections.any (fun s => s.has_critical_failure)
  let pct := if total_possible > 0 then quantize2 (total_scored / total_possible * 100) else 0
  let g := if crit then 'F' else calculate_normal_grade pct
  { a with total_scored := total_scored
         , total_possible := total_possible
         , has_critical_failure := crit
         , total_percentage := pct
         , grade := g }

/-- `Audit.calculate_totals` with its Bool return (src/core/models.py:95-166):
when the persistence of the recomputed aggregates fails (modelled by
`persist_ok = false`), the method returns `False` and the stored row keeps
its stale values; on success it returns `True` with the recomputed row. -/
def calculate_totals_r (a : Audit) (persist_ok : Bool) : Bool × Audit :=
  if persist_ok then (true, calculate_totals a) else (false, a)

/-- Python `str.strip()`: drop leading and trailing whitespace, here on the
string's character list. Only its emptiness is ever used by the source. -/
def stripped (s : String) : List Char :=
  ((s.data.dropWhile Char.isWhitespace).reverse.dropWhile Char.isWhitespace).reverse

/-- Truthiness of `(comments or "").strip()`: false when the stripped string
is empty. -/
def comments_nonblank (s : String) : Bool := !(stripped s).isEmpty

/-- The distinct ids of answered questions of one section, as collected by
`Audit.get_progress_percentage` (src/core/models.py:252-272): responses are
restricted to the section's questions (`question__in=q_ids`), a response is
answered when `scored > 0 or comments` (comments stripped), and the ids are
gathered into a Python set. -/
def responded_q_ids (s : AuditSection) : List Nat :=
  ((s.responses.filter (fun r =>
      (s.questions.any (fun q => q.qid == r.question.qid)) &&
      (decide (0 < r.scored_points) || comments_nonblank r.comments))).map
    (fun r => r.question.qid)).dedup

/-- `Audit.get_progress_percentage` (src/core/models.py:228):
answered distinct questions over total questions, as a percentage
quantized to 2 decimal places; `0` when there are no questions. -/
def get_progress_percentage (a : Audit) : ℚ :=
  let total_questions : Nat := a.sections.foldl (fun acc s => acc + s.questions.length) 0
  let answered_questions : Nat := a.sections.foldl (fun acc s => acc + (responded_q_ids s).length) 0
  if 0 < total_questions then
    quantize2 ((answered_questions : ℚ) / (total_questions : ℚ) * 100)
  else 0

/-- `Audit.can_be_submitted` (src/core/models.py:352):
not already submitted, and some progress exists. -/
def can_be_submitted (a : Audit) : Bool :=
  if a.is_submitted then false
  else decide (0 < get_progress_percentage a)

/-- `Audit.get_previous_audit` (src/core/models.py:183): the last submitted
audit of the same restaurant strictly before this audit's date. -/
def get_previous_audit (store : List Audit) (a : Audit) : Option Audit :=
  (store.filter (fun b =>
      b.restaurant == a.restaurant && decide (b.audit_date < a.audit_date) && b.is_submitted)).foldl
    (fun acc b =>
      match acc with
      | none => some b
      | some c => if c.audit_date < b.audit_date then some b else acc) none

/-- `Audit.update_previous_audit_info` (src/core/models.py:195). -/
def update_previous_audit_info (store : List Audit) (a : Audit) : Audit :=
  match get_previous_audit store a with
  | none => a
  | some p =>
      { a with previous_audit_date := some p.audit_date
             , previous_audit_score := some p.total_percentage
             , previous_auditor := p.auditor_display }

/-- `Audit.submit_audit` (src/core/models.py:316): recompute totals, copy
previous-audit metadata (best effort), then mark submitted. In the embedding
`calculate_totals` always succeeds, so the method returns `true`. -/
def submit_audit (store : List Audit) (a : Audit) (now : Nat) : Bool × Audit :=
  let a1 := calculate_totals a
  let a2 := update_previous_audit_info store a1
  (true, { a2 with is_submitted := true, submitted_at := some now })

/-- `views.submit_audit` (src/core/views.py:322): guard on `can_be_submitted`,
returning failure with no state change when the guard refuses. -/
def submit_audit_view (store : List Audit) (a : Audit) (now : Nat) : Bool × Audit :=
  if ¬ can_be_submitted a then (false, a)
  else submit_audit store a now

/-- The clamp inside `AuditQuestionResponse.save` (src/core/models.py:580-591):
scored points above the question's ceiling are reduced to the ceiling. -/
def model_save_clamp (r : Response) : Response :=
  if r.question.possible_points < r.scored_points then
    { r with scored_points := r.question.possible_points }
  else r

/-- `signals.validate_response_points` (src/core/signals.py:57), the pre-save
receiver: clamp above the ceiling, then clamp negatives to 0. -/
def validate_response_points (r : Response) : Response :=
  let r1 :=
    if r.question.possible_points < r.scored_points then
      { r with scored_points := r.question.possible_points }
    else r
  if r1.scored_points < 0 then { r1 with scored_points := 0 } else r1

/-- One persisted save of a response: the model-level clamp runs first and the
pre-save signal fires inside `super().save()` before the row is written. -/
def response_save (r : Response) : Response :=
  validate_response_points (model_save_clamp r)

/-- The view-level coercion in `views.save_response` (src/core/views.py:261-266):
`float(scored_points)` with non-numeric input falling back to `0`. -/
def coerce_scored_points (raw : Option ℚ) : ℚ :=
  match raw with
  | some x => x
  | none => 0

/-- `signals.auto_create_corrective_action` (src/core/signals.py:91), the
post-save receiver: on a critical question scored 0, create one
`CorrectiveAction` keyed by the response unless one already exists. -/
def auto_create_corrective_action (audit : Audit) (r : Response)
    (cas : List CorrectiveAction) : List CorrectiveAction :=
  if r.question.is_critical && decide (r.scored_points = 0) then
    if cas.any (fun ca => ca.question_response == r.rid) then cas
    else cas ++
      [{ question_response := r.rid
       , description := "Critical failure in: " ++ r.question.question_text
       , risk_level := "CRITICAL"
       , assigned_to := audit.manager_on_duty
       , deadline := audit.audit_date
       , comments := "Automatically created due to critical failure" }]
  else cas

/-- `views.save_response` (src/core/views.py:250-316), the persisted response
and corrective-action list: coerce the raw points, `get_or_create` or update
the row with the caller-supplied fields, save (clamping, then the post-save
corrective-action receiver), and force `needs_corrective_action` with a second
save when the question is critical and the raw points are 0. -/
def save_response_view (existing : Option Response) (rid : Nat) (q : Question)
    (raw : Option ℚ) (comments : String) (needs_action : Bool)
    (audit : Audit) (cas : List CorrectiveAction) : Response × List CorrectiveAction :=
  let scored := coerce_scored_points raw
  let r0 : Response :=
    match existing with
    | none =>
        { rid := rid, question := q, scored_points := scored
        , comments := comments, needs_corrective_action := needs_action }
    | some r =>
        { r with scored_points := scored, comments := comments
               , needs_corrective_action := needs_action }
  let r1 := response_save r0
  let cas1 := auto_create_corrective_action audit r1 cas
  if q.is_critical && decide (scored = 0) then
    let r2 := response_save { r1 with needs_corrective_action := true }
    (r2, auto_create_corrective_action audit r2 cas1)
  else (r1, cas1)

/-- The tail of `views.save_response`: the view calls `audit.calculate_totals()`
discarding its Bool return (src/core/views.py:297) and then reports
`success: True` unconditionally (src/core/views.py:299-300). -/
def save_response_report (a : Audit) (persist_ok : Bool) : Bool × Audit :=
  let ta := calculate_totals_r a persist_ok
  (true, ta.snd)

/-- The answered-row count of one section in `views.audit_progress`
(src/core/views.py:384-386): responses excluding rows where `scored_points`
is null AND `comments` is exactly empty; `scored_points` is a non-nullable
column with a default, so the isnull test is always false. -/
def audit_progress_answered (s : AuditSection) : Nat :=
  (s.responses.filter (fun r => !(false && r.comments == ""))).length

/-- `views.audit_progress` overall progress (src/core/views.py:377-401):
plain (unquantized) percentage of the answered-row count over the question
count. -/
def audit_progress_overall (a : Audit) : ℚ :=
  let tq : Nat := a.sections.foldl (fun acc s => acc + s.questions.length) 0
  let aq : Nat := a.sections.foldl (fun acc s => acc + audit_progress_answered s) 0
  if 0 < tq then (aq : ℚ) / (tq : ℚ) * 100 else 0

/-- The full aggregation pass triggered by a response save: every section row
is recomputed and persisted first, then the audit row is recomputed from the
persisted section rows (src/core/models.py:517-522, src/core/signals.py:15-32). -/
def recompute_audit_full (a : Audit) : Audit :=
  calculate_totals { a with sections := a.sections.map calculate_section_score }

section Fixtures

/-- A critical question worth 10 points. -/
def qCrit : Question := ⟨1, "Fire extinguisher present", 10, true⟩

/-- A non-critical question worth 10 points. -/
def qNorm : Question := ⟨2, "Floors clean", 10, false⟩

/-- A zero-scored, comment-free response to the critical question. -/
def rFail : Response := ⟨11, qCrit, 0, "", false⟩

/-- A fully-scored response to the non-critical question. -/
def rGood : Response := ⟨12, qNorm, 10, "ok", false⟩

/-- An overscored response to the critical question. -/
def rOver : Response := ⟨13, qCrit, 15, "", false⟩

/-- A section row over both questions with both responses recorded. -/
def secFix : AuditSection := ⟨[qCrit, qNorm], [rFail, rGood], 0, 0, 0, false⟩

/-- A baseline audit over `secFix` with zeroed aggregates. -/
def auditBase : Audit :=
  { restaurant := 1, audit_date := 100, manager_on_duty := "Ali"
  , auditor_display := "Sara", total_scored := 0, total_possible := 0
  , total_percentage := 0, grade := 'F', has_critical_failure := false
  , previous_audit_date := none, previous_audit_score := none
  , previous_auditor := "", is_submitted := false, submitted_at := none
  , sections := [secFix] }

/-- An audit whose one section row is flagged with a critical failure. -/
def auditCrit : Audit :=
  { auditBase with sections := [{ secFix with has_critical_failure := true }] }

/-- An audit with no section rows at all. -/
def auditEmpty : Audit := { auditBase with sections := [] }

/-- An already-submitted audit. -/
def auditSubmitted : Audit :=
  { auditBase with is_submitted := true, submitted_at := some 5 }

/-- An audit whose stored totals are stale relative to its section rows. -/
def auditStale : Audit :=
  { auditBase with
      sections := [{ secFix with scored_points := 5, possible_points := 10 }] }

/-- A section holding one question whose only response is unanswered
(zero points, blank comments). -/
def secBug : AuditSection := ⟨[qCrit], [rFail], 0, 0, 0, false⟩

/-- An audit over `secBug`: one question, one unanswered response row. -/
def auditBug : Audit := { auditBase with sections := [secBug] }

end Fixtures

/-- An accumulating fold of a mapped addition is the sum of the mapped list. -/
theorem foldl_add_map {α : Type*} {M : Type*} [AddCommMonoid M] (f : α → M)
    (l : List α) (i : M) :
    l.foldl (fun acc x => acc + f x) i = i + (l.map f).sum := by
  induction l generalizing i with
  | nil => simp
  | cons x xs ih => simp [ih, add_assoc]

/-- Recomputing audit totals does not touch the section rows. -/
theorem calculate_totals_sections (a : Audit) :
    (calculate_totals a).sections = a.sections := rfl

/-- Recomputing a section score does not touch the underlying responses. -/
theorem calculate_section_score_responses (s : AuditSection) :
    (calculate_section_score s).responses = s.responses := rfl

/-- A saved response's points equal the submitted points clamped to the
question's ceiling below and zero above. -/
theorem clamp_scored_eval (x : Response) (hx : 0 ≤ x.question.possible_points) :
    (response_save x).scored_points
      = max 0 (min x.scored_points x.question.possible_points) := by
  unfold response_save model_save_clamp validate_response_points
  split_ifs with h1 h2 <;> simp_all
  · rw [if_neg (not_lt.mpr hx), inf_eq_right.mpr h1.le, sup_eq_right.mpr hx]
  · split_ifs with h4
    · exact (sup_eq_left.mpr h4.le).symm
    · exact (sup_eq_right.mpr (not_lt.mp h4)).symm

/-- Saving a response never changes which question it answers. -/
theorem response_save_question (x : Response) :
    (response_save x).question = x.question := by
  simp only [response_save, model_save_clamp, validate_response_points]
  split_ifs <;> rfl

/-- Saving a response never changes its corrective-action flag. -/
theorem response_save_needs (x : Response) :
    (response_save x).needs_corrective_action = x.needs_corrective_action := by
  simp only [response_save, model_save_clamp, validate_response_points]
  split_ifs <;> rfl

/-- The persisted points of a `save_response` call, for either branch of the
critical-zero test, equal the clamped candidate points. -/
theorem save_response_scored_core (r0 : Response) (q : Question)
    (hq : 0 ≤ q.possible_points) (hq0 : r0.question = q) :
    (if (q.is_critical && decide (r0.scored_points = 0)) = true then
       response_save { response_save r0 with needs_corrective_action := true }
     else response_save r0).scored_points
      = max 0 (min r0.scored_points q.possible_points) := by
  have hr0q : 0 ≤ r0.question.possible_points := by rw [hq0]; exact hq
  have hA : (response_save r0).scored_points
      = max 0 (min r0.scored_points q.possible_points) := by
    rw [clamp_scored_eval r0 hr0q, hq0]
  by_cases hb : (q.is_critical && decide (r0.scored_points = 0)) = true
  · rw [if_pos hb]
    have h0 : r0.scored_points = 0 := of_decide_eq_true ((Bool.and_eq_true _ _).mp hb).2
    have hB : (response_save { response_save r0 with needs_corrective_action := true
        }).scored_points = max 0 (min (response_save r0).scored_points q.possible_points) := by
      rw [clamp_scored_eval _ (by
        rw [show ({ response_save r0 with needs_corrective_action := true } : Response).question
            = (response_save r0).question from rfl, response_save_question, hq0]
        exact hq)]
      rw [show ({ response_save r0 with needs_corrective_action := true } : Response).question
          = (response_save r0).question from rfl, response_save_question, hq0]
    rw [hB, hA, h0]
    simp [min_eq_left hq]
  · rw [if_neg hb]
    exact hA

/-- The submit view refuses any already-submitted audit unchanged. -/
theorem submit_view_submitted (store : List Audit) (b : Audit) (n : Nat)
    (h : b.is_submitted = true) : submit_audit_view store b n = (false, b) := by
  simp [submit_audit_view, can_be_submitted, h]

/-- Claim C1: after `calculate_totals` the grade is 'F' whenever the audit has
a critical failure, regardless of percentage; without a critical failure the
grade is bucketed from the total percentage, with boundary values
96.0 → A, 95.9 → B, 90.0 → B, 89.9 → C, 80.0 → C, 79.9 → F. -/
theorem grade_critical_override_and_buckets (a : Audit) :
    ((calculate_totals a).has_critical_failure = true → (calculate_totals a).grade = 'F')
    ∧ ((calculate_totals a).has_critical_failure = false →
        (calculate_totals a).grade = calculate_normal_grade (calculate_totals a).total_percentage)
    ∧ calculate_normal_grade 96 = 'A' ∧ calculate_normal_grade (959/10) = 'B'
    ∧ calculate_normal_grade 90 = 'B' ∧ calculate_normal_grade (899/10) = 'C'
    ∧ calculate_normal_grade 80 = 'C' ∧ calculate_normal_grade (799/10) = 'F' := by
  refine ⟨?_, ?_, ?_, ?_, ?_, ?_, ?_, ?_⟩
  · intro h
    simp only [calculate_totals] at h ⊢
    simp_all
  · intro h
    simp only [calculate_totals] at h ⊢
    simp_all
  all_goals norm_num [calculate_normal_grade]

/-- Witness for C1: a concrete audit with a critically-failed section is
graded 'F' by `calculate_totals`. -/
theorem grade_critical_override_witness :
    (calculate_totals auditCrit).has_critical_failure = true
    ∧ (calculate_totals auditCrit).grade = 'F' := by
  have h : (calculate_totals auditCrit).has_critical_failure = true := rfl
  exact ⟨h, (grade_critical_override_and_buckets auditCrit).1 h⟩

/-- Claim C2: after `calculate_section_score` a section is critically failed
iff some of its responses answers a critical question with zero points, and
after `calculate_totals` an audit is critically failed iff some of its
sections is. -/
theorem critical_failure_propagation (s : AuditSection) (a : Audit) :
    ((calculate_section_score s).has_critical_failure = true ↔
      ∃ r ∈ s.responses, r.question.is_critical = true ∧ r.scored_points = 0)
    ∧ ((calculate_totals a).has_critical_failure = true ↔
      ∃ t ∈ a.sections, t.has_critical_failure = true) := by
  constructor
  · simp [calculate_section_score, List.any_eq_true]
  · simp [calculate_totals, List.any_eq_true]

/-- Claim C3: recomputed section and audit percentages equal the responses'
(resp. sections') point sums divided and quantized to 2 decimal places when
the possible total is positive, and 0 otherwise; an audit with no sections
recomputes to all-zero totals and grade 'F' without failing. -/
theorem percentage_quantized_rule (s : AuditSection) (a : Audit) (a0 : Audit)
    (h : a0.sections = []) :
    ((calculate_section_score s).section_percentage =
      if 0 < (s.responses.map (fun r => r.question.possible_points)).sum
      then quantize2 ((s.responses.map (fun r => r.scored_points)).sum /
        (s.responses.map (fun r => r.question.possible_points)).sum * 100)
      else 0)
    ∧ ((calculate_totals a).total_percentage =
      if 0 < (a.sections.map (fun t => t.possible_points)).sum
      then quantize2 ((a.sections.map (fun t => t.scored_points)).sum /
        (a.sections.map (fun t => t.possible_points)).sum * 100)
      else 0)
    ∧ (calculate_totals a0).total_scored = 0 ∧ (calculate_totals a0).total_possible = 0
    ∧ (calculate_totals a0).total_percentage = 0 ∧ (calculate_totals a0).grade = 'F' := by
  refine ⟨?_, ?_, ?_, ?_, ?_, ?_⟩
  · simp [calculate_section_score, foldl_add_map]
  · simp [calculate_totals, foldl_add_map]
  all_goals norm_num [calculate_totals, h, calculate_normal_grade]

/-- Witness for C3: recomputing the concrete audit with zero sections yields
grade 'F'. -/
theorem percentage_quantized_witness :
    auditEmpty.sections = [] ∧ (calculate_totals auditEmpty).grade = 'F' :=
  ⟨rfl, (percentage_quantized_rule secFix auditBase auditEmpty rfl).2.2.2.2.2⟩

/-- Claim C4: a saved response's points equal the candidate clamped to
[0, question.possiblePoints] — overscores reduced to the ceiling, negatives
to 0 — both for a direct row save and through the `save_response` view, the
persisted value is always in range, and non-numeric input becomes 0. -/
theorem scored_points_clamping (r : Response) (existing : Option Response) (rid : Nat)
    (q : Question) (raw : Option ℚ) (comments : String) (na : Bool)
    (audit : Audit) (cas : List CorrectiveAction)
    (hr : 0 ≤ r.question.possible_points) (hq : 0 ≤ q.possible_points)
    (hexq : ∀ x, existing = some x → x.question = q) :
    (response_save r).scored_points = max 0 (min r.scored_points r.question.possible_points)
    ∧ 0 ≤ (response_save r).scored_points
    ∧ (response_save r).scored_points ≤ r.question.possible_points
    ∧ coerce_scored_points none = 0
    ∧ (save_response_view existing rid q raw comments na audit cas).fst.scored_points
        = max 0 (min (coerce_scored_points raw) q.possible_points) := by
  refine ⟨clamp_scored_eval r hr, ?_, ?_, rfl, ?_⟩
  · rw [clamp_scored_eval r hr]; exact le_max_left _ _
  · rw [clamp_scored_eval r hr]; exact max_le hr (min_le_right _ _)
  · cases existing with
    | none =>
        have hc := save_response_scored_core
          ⟨rid, q, coerce_scored_points raw, comments, na⟩ q hq rfl
        simp only [save_response_view]
        by_cases hb : (q.is_critical && decide (coerce_scored_points raw = 0)) = true
        · rw [if_pos hb] at hc ⊢
          exact hc
        · rw [if_neg hb] at hc ⊢
          exact hc
    | some x =>
        have hxq : x.question = q := hexq x rfl
        have hc := save_response_scored_core
          { x with scored_points := coerce_scored_points raw, comments := comments
                 , needs_corrective_action := na } q hq hxq
        simp only [save_response_view]
        by_cases hb : (q.is_critical && decide (coerce_scored_points raw = 0)) = true
        · rw [if_pos hb] at hc ⊢
          exact hc
        · rw [if_neg hb] at hc ⊢
          exact hc

/-- Witness for C4: the concrete overscored response (15 of 10 points) is
persisted clamped. -/
theorem scored_points_clamping_witness :
    (0:ℚ) ≤ rOver.question.possible_points
    ∧ (response_save rOver).scored_points
        = max 0 (min rOver.scored_points rOver.question.possible_points) :=
  ⟨by norm_num [rOver, qCrit],
   (scored_points_clamping rOver none 0 qCrit none "" false auditBase []
      (by norm_num [rOver, qCrit]) (by norm_num [qCrit]) (by intro x hx; cases hx)).1⟩

/-- Claim C5: recomputation is idempotent — recomputing a section again, and
rerunning the full section-then-audit pass again, with unchanged response
rows reproduces exactly the same persisted values. -/
theorem recompute_idempotent (a : Audit) (s : AuditSection) :
    calculate_section_score (calculate_section_score s) = calculate_section_score s
    ∧ recompute_audit_full (recompute_audit_full a) = recompute_audit_full a := by
  have hsec : ∀ t : AuditSection,
      calculate_section_score (calculate_section_score t) = calculate_section_score t :=
    fun t => rfl
  have hs : (recompute_audit_full a).sections = a.sections.map calculate_section_score := rfl
  refine ⟨hsec s, ?_⟩
  show calculate_totals { recompute_audit_full a with
    sections := (recompute_audit_full a).sections.map calculate_section_score }
      = recompute_audit_full a
  have hmap : List.map (calculate_section_score ∘ calculate_section_score) a.sections
      = List.map calculate_section_score a.sections :=
    List.map_congr_left (fun t _ => hsec t)
  rw [hs, List.map_map, hmap]
  rfl

/-- Claim C6: the submit view refuses with a failure result and no state
change when the audit is already submitted or has zero progress, and a
second submit after a successful one fails leaving every field unchanged. -/
theorem submit_guard_refusals (store store2 : List Audit) (a : Audit) (n1 n2 : Nat) :
    (a.is_submitted = true → submit_audit_view store a n1 = (false, a))
    ∧ (get_progress_percentage a = 0 → submit_audit_view store a n1 = (false, a))
    ∧ ((submit_audit_view store a n1).fst = true →
        submit_audit_view store2 (submit_audit_view store a n1).snd n2
          = (false, (submit_audit_view store a n1).snd)) := by
  refine ⟨submit_view_submitted store a n1, ?_, ?_⟩
  · intro h
    simp [submit_audit_view, can_be_submitted, h]
  · intro h
    by_cases hc : can_be_submitted a = true
    · have hview : submit_audit_view store a n1 = submit_audit store a n1 := by
        simp [submit_audit_view, hc]
      have hsub : (submit_audit_view store a n1).snd.is_submitted = true := by
        rw [hview]; rfl
      exact submit_view_submitted store2 _ n2 hsub
    · exfalso
      have hf : submit_audit_view store a n1 = (false, a) := by
        simp [submit_audit_view, hc]
      rw [hf] at h
      exact Bool.false_ne_true h

/-- Witness for C6: submitting the concrete already-submitted audit reports
failure and changes nothing. -/
theorem submit_guard_witness :
    auditSubmitted.is_submitted = true
    ∧ submit_audit_view [] auditSubmitted 0 = (false, auditSubmitted) :=
  ⟨rfl, (submit_guard_refusals [] [] auditSubmitted 0 0).1 rfl⟩

/-- Claim C7: the first save of a zero-scored critical response creates
exactly one CorrectiveAction with risk level CRITICAL, assignee the audit's
manager on duty, deadline the audit date and a description naming the failed
question; re-saving the same failing response creates nothing further, and
raising the score later deletes nothing. -/
theorem auto_corrective_action_create_once (audit : Audit) (r : Response)
    (cas : List CorrectiveAction)
    (hcrit : r.question.is_critical = true) (hzero : r.scored_points = 0)
    (hnew : ∀ ca ∈ cas, ca.question_response ≠ r.rid) :
    auto_create_corrective_action audit r cas
      = cas ++ [{ question_response := r.rid
                , description := "Critical failure in: " ++ r.question.question_text
                , risk_level := "CRITICAL"
                , assigned_to := audit.manager_on_duty
                , deadline := audit.audit_date
                , comments := "Automatically created due to critical failure" }]
    ∧ auto_create_corrective_action audit r (auto_create_corrective_action audit r cas)
        = auto_create_corrective_action audit r cas
    ∧ (∀ p : ℚ, 0 < p →
        auto_create_corrective_action audit { r with scored_points := p }
          (auto_create_corrective_action audit r cas)
          = auto_create_corrective_action audit r cas) := by
  have hcond : (r.question.is_critical && decide (r.scored_points = 0)) = true := by
    simp [hcrit, hzero]
  have hany : (cas.any (fun ca => ca.question_response == r.rid)) = false := by
    simp only [List.any_eq_false]
    intro ca hca
    simp [hnew ca hca]
  have h1 : auto_create_corrective_action audit r cas
      = cas ++ [{ question_response := r.rid
                , description := "Critical failure in: " ++ r.question.question_text
                , risk_level := "CRITICAL"
                , assigned_to := audit.manager_on_duty
                , deadline := audit.audit_date
                , comments := "Automatically created due to critical failure" }] := by
    unfold auto_create_corrective_action
    rw [if_pos hcond, if_neg (by rw [hany]; exact Bool.false_ne_true)]
  refine ⟨h1, ?_, ?_⟩
  · rw [h1]
    unfold auto_create_corrective_action
    rw [if_pos hcond, if_pos (by simp [List.any_eq_true])]
  · intro p hp
    rw [h1]
    unfold auto_create_corrective_action
    rw [if_neg ?c2]
    case c2 =>
      simp only [Bool.and_eq_true, decide_eq_true_iff]
      rintro ⟨-, h⟩
      exact absurd h (ne_of_gt hp)

/-- Witness for C7: the concrete zero-scored critical response spawns exactly
its one corrective action. -/
theorem auto_corrective_witness :
    rFail.question.is_critical = true ∧ rFail.scored_points = 0
    ∧ auto_create_corrective_action auditBase rFail []
      = [{ question_response := rFail.rid
         , description := "Critical failure in: " ++ rFail.question.question_text
         , risk_level := "CRITICAL"
         , assigned_to := auditBase.manager_on_duty
         , deadline := auditBase.audit_date
         , comments := "Automatically created due to critical failure" }] := by
  refine ⟨rfl, rfl, ?_⟩
  have h := (auto_corrective_action_create_once auditBase rFail [] rfl rfl
    (by intro ca hca; cases hca)).1
  simpa using h

/-- Counterexample to C8 as stated: for a non-critical question, a
caller-supplied `needs_corrective_action = true` is persisted as true, not
reset to false. -/
theorem needs_flag_counterexample :
    (save_response_view none 7 qNorm (some 5) "" true auditBase []
      ).fst.needs_corrective_action = true
    ∧ qNorm.is_critical = false ∧ ((5:ℚ) = 0) = False := by
  refine ⟨?_, rfl, by norm_num⟩
  norm_num [save_response_view, response_save, model_save_clamp, validate_response_points,
    coerce_scored_points, qNorm, response_save_needs]

/-- Claim C8 (amended): after `save_response`, the persisted
`needs_corrective_action` flag equals the forced critical-zero condition —
computed from the raw submitted points, before clamping — OR the
caller-supplied flag value; with the caller default of false it reduces to
the critical-zero condition alone. -/
theorem needs_flag_amended (existing : Option Response) (rid : Nat) (q : Question)
    (raw : Option ℚ) (comments : String) (na : Bool) (audit : Audit)
    (cas : List CorrectiveAction) :
    (save_response_view existing rid q raw comments na audit cas).fst.needs_corrective_action
      = ((q.is_critical && decide (coerce_scored_points raw = 0)) || na) := by
  cases existing with
  | none =>
      simp only [save_response_view]
      by_cases hb : (q.is_critical && decide (coerce_scored_points raw = 0)) = true
      · rw [if_pos hb, hb]
        simp [response_save_needs]
      · rw [if_neg hb]
        simp only [Bool.not_eq_true] at hb
        rw [hb]
        simp [response_save_needs]
  | some x =>
      simp only [save_response_view]
      by_cases hb : (q.is_critical && decide (coerce_scored_points raw = 0)) = true
      · rw [if_pos hb, hb]
        simp [response_save_needs]
      · rw [if_neg hb]
        simp only [Bool.not_eq_true] at hb
        rw [hb]
        simp [response_save_needs]

/-- Claim C9 (code bug evidence): when persisting recomputed totals fails,
`calculate_totals` reports failure and the stored audit keeps stale
aggregates, yet the `save_response` view still reports success. -/
theorem save_response_success_despite_failed_totals :
    (calculate_totals_r auditStale false).fst = false
    ∧ save_response_report auditStale false = (true, auditStale)
    ∧ calculate_totals auditStale ≠ auditStale := by
  refine ⟨rfl, rfl, ?_⟩
  intro h
  have h5 : (calculate_totals auditStale).total_scored = auditStale.total_scored :=
    congrArg Audit.total_scored h
  norm_num [calculate_totals, auditStale, auditBase, secFix] at h5

/-- Claim C10 (code bug evidence): on an audit whose only response is
unanswered (zero points, blank comments), `get_progress_percentage` reports
0 as the claim specifies, but the `audit_progress` view reports 100 because
it counts every response row as answered. -/
theorem progress_view_counts_unanswered_rows :
    get_progress_percentage auditBug = 0
    ∧ audit_progress_overall auditBug = 100
    ∧ (decide (0 < rFail.scored_points) || comments_nonblank rFail.comments) = false := by
  have h : responded_q_ids secBug = [] := by decide
  have h1 : secBug.questions.length = 1 := by decide
  refine ⟨?_, ?_, by decide⟩
  · norm_num [get_progress_percentage, auditBug, h, h1, quantize2, roundHalfEven]
  · norm_num [audit_progress_overall, audit_progress_answered, auditBug, h1, secBug]

end Checklist
